import Mathlib

/-!
Shallow embedding of the `presale` Anchor program
(`programs/neurolov/src/lib.rs`) and proofs about its sale ledger.

Modelling conventions:
* `u64` values are `Nat`; Rust's checked arithmetic is modelled by
  `checked_add`, `checked_mul`, `checked_div` below, which return `none`
  exactly when the Rust operation would return `None`.  `saturating_sub`
  on `u64` is Lean's truncated `Nat` subtraction.
* `i64` timestamps and durations are `Int`.
* Solana `Pubkey`s are opaque 32-byte addresses; they are modelled as
  `Nat`, with the two allow-listed stable-coin mints as distinct
  constants.
* Each instruction handler becomes a function from the `Presale` account
  state (plus the instruction arguments and the relevant foreign account
  data) to `Except (TxError × Presale) result`.  An `.error (e, s)` result
  carries the state of the account at the moment the handler aborted, so
  that "no partial mutation on failure" is a provable property rather
  than one baked into the embedding.  A `.ok` result carries the new
  state, the list of transfers the handler invoked, and the emitted
  event.
* The external transfer collaborators (the system-program SOL transfer
  and the SPL `token::transfer` CPI) can fail for reasons outside this
  program; each handler takes a `Bool` oracle telling whether that call
  succeeds, and a failing call aborts the transaction
  (`TxError.transferFailed`), exactly as `?` propagates the error in the
  source.
* A `checked_*` result that the source immediately `.unwrap()`s becomes
  `TxError.overflowPanic` when it is `none`: the transaction aborts.
-/

/-- One more than `u64::MAX`. -/
def U64_LIMIT : Nat := 2 ^ 64

/-- Rust `u64::checked_add`. -/
def checked_add (a b : Nat) : Option Nat :=
  if a + b < U64_LIMIT then some (a + b) else none

/-- Rust `u64::checked_mul`. -/
def checked_mul (a b : Nat) : Option Nat :=
  if a * b < U64_LIMIT then some (a * b) else none

/-- Rust `u64::checked_div`: `none` exactly on division by zero. -/
def checked_div (a b : Nat) : Option Nat :=
  if b = 0 then none else some (a / b)

/-- The USDC mint address from `constant.rs`, as an opaque identifier. -/
def USDC_ADDRESS : Nat := 101

/-- The USDT mint address from `constant.rs`, as an opaque identifier. -/
def USDT_ADDRESS : Nat := 102

/-- The error codes of `PresaleError` in the source. -/
inductive PresaleError where
  | InvalidTokenAccount
  | PrivateSaleNotOver
  | PublicSaleNotOver
  | SaleAlreadyEnded
  | PresaleNotActive
  | PresaleActive
  | InsufficientTokens
  | InsufficientFunds
  | InvalidStableToken
  | InsufficientStableCoin
  | InvalidPaymentType
  | InvalidPrice
  | Unauthorized
  | LiquidityPoolAlreadyCreated
  | NoUnsoldTokens
  | HardcapReached
deriving DecidableEq, Repr

/-- How a transaction can abort: a typed program error, an `.unwrap()`
panic on checked arithmetic, or a failure propagated from the external
transfer collaborator. -/
inductive TxError where
  | program : PresaleError → TxError
  | overflowPanic : TxError
  | transferFailed : TxError
deriving DecidableEq, Repr

/-- A transfer requested from the external balance-transfer services:
either a system-program SOL transfer or an SPL-token transfer between
token accounts. -/
inductive Effect where
  | solTransfer (src dst lamports : Nat)
  | tokenTransfer (src dst amount : Nat)
deriving DecidableEq, Repr

/-- The `Presale` account state (struct `Presale` in the source). -/
structure Presale where
  admin : Nat
  presale_start : Int
  usd_price_cents_per_nlov : Nat
  sol_price_lamports_per_nlov : Nat
  private_sale_duration : Int
  public_sale_duration : Int
  sale_stage : Nat
  total_sold : Nat
  hardcap_tokens : Nat
  pool_created : Bool
  presale_wallet : Nat
  merchant_wallet : Nat
  bump : Nat
deriving DecidableEq, Repr

/-- Result of a handler: either an abort carrying the account state at
the abort point, or the handler's value. -/
abbrev TxResult (α : Type) := Except (TxError × Presale) α

/-- Event `BuyTokensEvent`. -/
structure BuyTokensEvent where
  buyer : Nat
  tokens_purchased : Nat
  sol_spent : Nat
  sol_price_lamports_per_nlov : Nat
  payment_type : Nat
deriving DecidableEq, Repr

/-- Event `BuyTokensByStableCoinEvent`. -/
structure BuyTokensByStableCoinEvent where
  buyer : Nat
  tokens_purchased : Nat
  stable_coin_amount : Nat
  payment_type : Nat
deriving DecidableEq, Repr

/-- Event `UpdateSalePriceEvent`. -/
structure UpdateSalePriceEvent where
  admin : Nat
  new_usd_price_cents : Nat
  new_sol_price_lamports : Nat
  sale_stage : Nat
deriving DecidableEq, Repr

/-- Event `FinalizePresaleEvent`. -/
structure FinalizePresaleEvent where
  admin : Nat
  unsold_presale_tokens : Nat
deriving DecidableEq, Repr

/-- The `initialize` instruction handler.  It never fails (the account
allocation is done by the host); it returns the freshly initialized
`Presale` state.  `now` is `Clock::get()?.unix_timestamp`. -/
def init_presale (admin_key : Nat)
    (usd_price_cents_per_nlov sol_price_lamports_per_nlov : Nat)
    (private_sale_duration_days public_sale_duration_days : Int)
    (hardcap_tokens : Nat) (now : Int)
    (presale_wallet merchant_wallet bump : Nat) : Presale :=
  { admin := admin_key
    presale_start := now
    usd_price_cents_per_nlov := usd_price_cents_per_nlov
    sol_price_lamports_per_nlov := sol_price_lamports_per_nlov
    private_sale_duration := private_sale_duration_days * 86400
    public_sale_duration := public_sale_duration_days * 86400
    sale_stage := 0
    total_sold := 0
    hardcap_tokens := hardcap_tokens
    pool_created := false
    presale_wallet := presale_wallet
    merchant_wallet := merchant_wallet
    bump := bump }

/-- The `set_stage` instruction handler.  `caller` is the signing
admin account's key; `now` is `Clock::get()?.unix_timestamp`. -/
def set_stage (p : Presale) (caller : Nat) (now : Int) : TxResult Presale :=
  if p.admin = caller then
    match p.sale_stage with
    | 0 => .ok { p with presale_start := now, sale_stage := 1 }
    | 1 =>
      if p.presale_start + p.private_sale_duration ≤ now then
        .ok { p with sale_stage := 2 }
      else
        .error (.program .PrivateSaleNotOver, p)
    | 2 =>
      if p.presale_start + p.private_sale_duration + p.public_sale_duration ≤ now then
        .ok { p with sale_stage := 3 }
      else
        .error (.program .PublicSaleNotOver, p)
    | _ => .error (.program .SaleAlreadyEnded, p)
  else
    .error (.program .Unauthorized, p)

/-- The `update_sale_period` instruction handler. -/
def update_sale_period (p : Presale) (caller : Nat)
    (new_private_sale_duration_days new_public_sale_duration_days : Int) :
    TxResult Presale :=
  if p.admin = caller then
    if p.sale_stage < 3 then
      .ok { p with
              private_sale_duration := new_private_sale_duration_days * 86400
              public_sale_duration := new_public_sale_duration_days * 86400 }
    else
      .error (.program .SaleAlreadyEnded, p)
  else
    .error (.program .Unauthorized, p)

/-- The `update_sale_price` instruction handler. -/
def update_sale_price (p : Presale) (caller : Nat)
    (new_usd_price_cents new_sol_price_lamports : Nat) :
    TxResult (Presale × UpdateSalePriceEvent) :=
  if p.admin = caller then
    if p.sale_stage = 1 ∨ p.sale_stage = 2 then
      .ok ({ p with
               usd_price_cents_per_nlov := new_usd_price_cents
               sol_price_lamports_per_nlov := new_sol_price_lamports },
           { admin := caller
             new_usd_price_cents := new_usd_price_cents
             new_sol_price_lamports := new_sol_price_lamports
             sale_stage := p.sale_stage })
    else
      .error (.program .PresaleNotActive, p)
  else
    .error (.program .Unauthorized, p)

/-- The payment branch of `buy_tokens`: `payment_type` 0 requests an
on-chain SOL transfer from the buyer to the merchant wallet (which can
fail, per the `sol_transfer_ok` oracle), 1 records a Web2 payment with
no transfer, anything else is `InvalidPaymentType`. -/
def sol_payment (buyer merchant : Nat) (payment_type lamports_sent : Nat)
    (sol_transfer_ok : Bool) : Except TxError (List Effect) :=
  if payment_type = 0 then
    if sol_transfer_ok then
      .ok [Effect.solTransfer buyer merchant lamports_sent]
    else
      .error .transferFailed
  else if payment_type = 1 then
    .ok []
  else
    .error (.program .InvalidPaymentType)

/-- The payment branch of `buy_tokens_by_stable_coin`: `payment_type` 0
requests an SPL-token transfer of the raw stable-coin amount from the
buyer's stable-coin account to the merchant's, 1 records a Web2 payment
with no transfer, anything else is `InvalidPaymentType`. -/
def stable_payment (buyer_stable_coin_account merchant_stable_coin_account : Nat)
    (payment_type stable_coin_amount_raw : Nat)
    (stable_transfer_ok : Bool) : Except TxError (List Effect) :=
  if payment_type = 0 then
    if stable_transfer_ok then
      .ok [Effect.tokenTransfer buyer_stable_coin_account
             merchant_stable_coin_account stable_coin_amount_raw]
    else
      .error .transferFailed
  else if payment_type = 1 then
    .ok []
  else
    .error (.program .InvalidPaymentType)

/-- The `buy_tokens` instruction handler (SOL rail).  `token_decimals`
is `token_mint.decimals`; `presale_wallet_amount` is the current token
balance of the presale wallet account. -/
def buy_tokens (p : Presale) (buyer : Nat) (payment_type lamports_sent : Nat)
    (token_decimals : Nat) (presale_wallet_amount : Nat) (sol_transfer_ok : Bool) :
    TxResult (Presale × List Effect × BuyTokensEvent) :=
  if p.sale_stage = 1 ∨ p.sale_stage = 2 then
    match checked_div lamports_sent p.sol_price_lamports_per_nlov with
    | none => .error (.program .InvalidPrice, p)
    | some tokens_to_purchase_user_units =>
      if 1 ≤ tokens_to_purchase_user_units then
        match checked_mul tokens_to_purchase_user_units (10 ^ token_decimals) with
        | none => .error (.overflowPanic, p)
        | some tokens_to_purchase_raw =>
          if (checked_add p.total_sold tokens_to_purchase_raw).getD (U64_LIMIT - 1)
              ≤ p.hardcap_tokens then
            if tokens_to_purchase_raw ≤ presale_wallet_amount - p.total_sold then
              match sol_payment buyer p.merchant_wallet payment_type lamports_sent
                  sol_transfer_ok with
              | .error e => .error (e, p)
              | .ok effects =>
                match checked_add p.total_sold tokens_to_purchase_raw with
                | none => .error (.overflowPanic, p)
                | some new_total_sold =>
                  .ok ({ p with total_sold := new_total_sold }, effects,
                       { buyer := buyer
                         tokens_purchased := tokens_to_purchase_user_units
                         sol_spent := lamports_sent
                         sol_price_lamports_per_nlov := p.sol_price_lamports_per_nlov
                         payment_type := payment_type })
            else
              .error (.program .InsufficientTokens, p)
          else
            .error (.program .HardcapReached, p)
      else
        .error (.program .InvalidPrice, p)
  else
    .error (.program .PresaleNotActive, p)

/-- The `buy_tokens_by_stable_coin` instruction handler (stable-coin
rail).  `stable_coin_mint` is the key of the stable-coin mint account;
`stable_coin_decimals` is that mint's decimal count. -/
def buy_tokens_by_stable_coin (p : Presale) (buyer : Nat)
    (payment_type stable_coin_amount_user_units : Nat)
    (token_decimals stable_coin_decimals : Nat) (stable_coin_mint : Nat)
    (buyer_stable_coin_account merchant_stable_coin_account : Nat)
    (presale_wallet_amount : Nat) (stable_transfer_ok : Bool) :
    TxResult (Presale × List Effect × BuyTokensByStableCoinEvent) :=
  if stable_coin_mint = USDC_ADDRESS ∨ stable_coin_mint = USDT_ADDRESS then
    if 1 ≤ stable_coin_amount_user_units then
      if p.sale_stage = 1 ∨ p.sale_stage = 2 then
        match checked_mul stable_coin_amount_user_units (10 ^ stable_coin_decimals) with
        | none => .error (.overflowPanic, p)
        | some stable_coin_amount_raw =>
          match checked_mul stable_coin_amount_user_units 100 with
          | none => .error (.overflowPanic, p)
          | some stable_coin_amount_cents =>
            match checked_div stable_coin_amount_cents p.usd_price_cents_per_nlov with
            | none => .error (.program .InvalidPrice, p)
            | some tokens_to_purchase_user_units =>
              match checked_mul tokens_to_purchase_user_units (10 ^ token_decimals) with
              | none => .error (.overflowPanic, p)
              | some tokens_to_purchase_raw =>
                if (checked_add p.total_sold tokens_to_purchase_raw).getD (U64_LIMIT - 1)
                    ≤ p.hardcap_tokens then
                  if tokens_to_purchase_raw ≤ presale_wallet_amount - p.total_sold then
                    match stable_payment buyer_stable_coin_account
                        merchant_stable_coin_account payment_type
                        stable_coin_amount_raw stable_transfer_ok with
                    | .error e => .error (e, p)
                    | .ok effects =>
                      match checked_add p.total_sold tokens_to_purchase_raw with
                      | none => .error (.overflowPanic, p)
                      | some new_total_sold =>
                        .ok ({ p with total_sold := new_total_sold }, effects,
                             { buyer := buyer
                               tokens_purchased := tokens_to_purchase_user_units
                               stable_coin_amount := stable_coin_amount_user_units
                               payment_type := payment_type })
                  else
                    .error (.program .InsufficientTokens, p)
                else
                  .error (.program .HardcapReached, p)
      else
        .error (.program .PresaleNotActive, p)
    else
      .error (.program .InvalidPrice, p)
  else
    .error (.program .InvalidStableToken, p)

/-- The `check_presale_token_balance` instruction handler: a pure read
returning the unreserved presale-wallet balance in user-facing units. -/
def check_presale_token_balance (p : Presale) (token_decimals : Nat)
    (presale_wallet_amount : Nat) : Nat :=
  (presale_wallet_amount - p.total_sold) / 10 ^ token_decimals

/-- The `finalize_presale` instruction handler.  `liquidity_wallet` is
the destination token account for unsold inventory. -/
def finalize_presale (p : Presale) (caller : Nat) (token_decimals : Nat)
    (presale_wallet_amount : Nat) (liquidity_wallet : Nat)
    (token_transfer_ok : Bool) :
    TxResult (Presale × List Effect × FinalizePresaleEvent) :=
  if p.admin = caller then
    if p.sale_stage = 3 then
      if p.pool_created then
        .error (.program .LiquidityPoolAlreadyCreated, p)
      else
        let unsold_presale_tokens_raw := presale_wallet_amount - p.total_sold
        if 0 < unsold_presale_tokens_raw then
          if token_transfer_ok then
            .ok ({ p with pool_created := true },
                 [Effect.tokenTransfer p.presale_wallet liquidity_wallet
                    unsold_presale_tokens_raw],
                 { admin := caller
                   unsold_presale_tokens :=
                     unsold_presale_tokens_raw / 10 ^ token_decimals })
          else
            .error (.transferFailed, p)
        else
          .ok ({ p with pool_created := true }, [],
               { admin := caller
                 unsold_presale_tokens :=
                   unsold_presale_tokens_raw / 10 ^ token_decimals })
    else
      .error (.program .PresaleActive, p)
  else
    .error (.program .Unauthorized, p)

/-- One successful instruction of the program, as a transition on the
`Presale` account state.  Failed instructions leave the account exactly
as it was (see the no-partial-mutation theorem), so reachability only
needs the successful transitions. -/
inductive Step : Presale → Presale → Prop where
  | set_stage_step (p : Presale) (caller : Nat) (now : Int) (q : Presale) :
      set_stage p caller now = .ok q → Step p q
  | update_sale_period_step (p : Presale) (caller : Nat) (dpriv dpub : Int)
      (q : Presale) :
      update_sale_period p caller dpriv dpub = .ok q → Step p q
  | update_sale_price_step (p : Presale) (caller usd sol : Nat) (q : Presale)
      (ev : UpdateSalePriceEvent) :
      update_sale_price p caller usd sol = .ok (q, ev) → Step p q
  | buy_tokens_step (p : Presale) (buyer pt lam dec amt : Nat) (tOk : Bool)
      (q : Presale) (effs : List Effect) (ev : BuyTokensEvent) :
      buy_tokens p buyer pt lam dec amt tOk = .ok (q, effs, ev) → Step p q
  | buy_stable_step (p : Presale) (buyer pt amount dec scdec mint bacct macct amt : Nat)
      (tOk : Bool) (q : Presale) (effs : List Effect)
      (ev : BuyTokensByStableCoinEvent) :
      buy_tokens_by_stable_coin p buyer pt amount dec scdec mint bacct macct amt tOk
        = .ok (q, effs, ev) → Step p q
  | finalize_step (p : Presale) (caller dec amt lw : Nat) (tOk : Bool)
      (q : Presale) (effs : List Effect) (ev : FinalizePresaleEvent) :
      finalize_presale p caller dec amt lw tOk = .ok (q, effs, ev) → Step p q

/-- The states reachable from some initialization by any sequence of
successful instructions. -/
def Reachable (p : Presale) : Prop :=
  ∃ a usd sol dpriv dpub cap now w m b,
    Relation.ReflTransGen Step
      (init_presale a usd sol dpriv dpub cap now w m b) p

/-- A concrete sale record used by the witness instantiations: admin 0,
presale wallet 11, merchant wallet 12, week-long private and two-week
public durations, with the prices, stage, sold total and hardcap as
given. -/
def mkState (usd sol stage total cap : Nat) : Presale :=
  { admin := 0
    presale_start := 0
    usd_price_cents_per_nlov := usd
    sol_price_lamports_per_nlov := sol
    private_sale_duration := 604800
    public_sale_duration := 1209600
    sale_stage := stage
    total_sold := total
    hardcap_tokens := cap
    pool_created := false
    presale_wallet := 11
    merchant_wallet := 12
    bump := 255 }


theorem checked_div_eq_some (a b c : Nat) :
    checked_div a b = some c ↔ b ≠ 0 ∧ a / b = c := by
  unfold checked_div; split <;> simp_all

theorem checked_mul_eq_some (a b c : Nat) :
    checked_mul a b = some c ↔ a * b < U64_LIMIT ∧ a * b = c := by
  unfold checked_mul; split <;> simp_all

theorem checked_add_eq_some (a b c : Nat) :
    checked_add a b = some c ↔ a + b < U64_LIMIT ∧ a + b = c := by
  unfold checked_add; split <;> simp_all

theorem sol_payment_ok (buyer merchant pt lam : Nat) (tOk : Bool)
    (effs : List Effect)
    (h : sol_payment buyer merchant pt lam tOk = .ok effs) :
    (pt = 0 ∧ tOk = true ∧ effs = [Effect.solTransfer buyer merchant lam]) ∨
    (pt = 1 ∧ effs = []) := by
  unfold sol_payment at h
  split at h <;> (try split at h) <;> simp_all

theorem stable_payment_ok (bacct macct pt raw : Nat) (tOk : Bool)
    (effs : List Effect)
    (h : stable_payment bacct macct pt raw tOk = .ok effs) :
    (pt = 0 ∧ tOk = true ∧ effs = [Effect.tokenTransfer bacct macct raw]) ∨
    (pt = 1 ∧ effs = []) := by
  unfold stable_payment at h
  split at h <;> (try split at h) <;> simp_all

theorem update_sale_period_ok (p : Presale) (caller : Nat) (dpriv dpub : Int)
    (q : Presale)
    (h : update_sale_period p caller dpriv dpub = .ok q) :
    p.admin = caller ∧ p.sale_stage < 3 ∧
    q = { p with private_sale_duration := dpriv * 86400
                 public_sale_duration := dpub * 86400 } := by
  unfold update_sale_period at h
  split at h <;> (try split at h) <;> simp_all

theorem update_sale_price_ok (p : Presale) (caller usd sol : Nat)
    (q : Presale) (ev : UpdateSalePriceEvent)
    (h : update_sale_price p caller usd sol = .ok (q, ev)) :
    p.admin = caller ∧ (p.sale_stage = 1 ∨ p.sale_stage = 2) ∧
    q = { p with usd_price_cents_per_nlov := usd
                 sol_price_lamports_per_nlov := sol } := by
  unfold update_sale_price at h
  split at h <;> (try split at h) <;> simp_all

theorem buy_tokens_ok (p : Presale) (buyer pt lam dec amt : Nat) (tOk : Bool)
    (q : Presale) (effs : List Effect) (ev : BuyTokensEvent)
    (h : buy_tokens p buyer pt lam dec amt tOk = .ok (q, effs, ev)) :
    (p.sale_stage = 1 ∨ p.sale_stage = 2) ∧
    p.sol_price_lamports_per_nlov ≠ 0 ∧
    1 ≤ lam / p.sol_price_lamports_per_nlov ∧
    (lam / p.sol_price_lamports_per_nlov) * 10 ^ dec < U64_LIMIT ∧
    p.total_sold + (lam / p.sol_price_lamports_per_nlov) * 10 ^ dec < U64_LIMIT ∧
    p.total_sold + (lam / p.sol_price_lamports_per_nlov) * 10 ^ dec
      ≤ p.hardcap_tokens ∧
    (lam / p.sol_price_lamports_per_nlov) * 10 ^ dec ≤ amt - p.total_sold ∧
    sol_payment buyer p.merchant_wallet pt lam tOk = .ok effs ∧
    q = { p with total_sold :=
            p.total_sold + (lam / p.sol_price_lamports_per_nlov) * 10 ^ dec } ∧
    ev = { buyer := buyer
           tokens_purchased := lam / p.sol_price_lamports_per_nlov
           sol_spent := lam
           sol_price_lamports_per_nlov := p.sol_price_lamports_per_nlov
           payment_type := pt } := by
  unfold buy_tokens at h
  split at h
  case isFalse => simp_all
  split at h
  case h_1 => simp_all
  case h_2 u hdiv =>
    rw [checked_div_eq_some] at hdiv
    obtain ⟨hb, hu⟩ := hdiv
    subst hu
    split at h
    case isFalse => simp_all
    split at h
    case h_1 => simp_all
    case h_2 raw hmul =>
      rw [checked_mul_eq_some] at hmul
      obtain ⟨hm, hraw⟩ := hmul
      subst hraw
      split at h
      case isFalse => simp_all
      split at h
      case isFalse => simp_all
      split at h
      case h_1 => simp_all
      case h_2 effects hpay =>
        split at h
        case h_1 => simp_all [checked_add_eq_some]
        case h_2 nt hadd =>
          rw [checked_add_eq_some] at hadd
          obtain ⟨ha, hnt⟩ := hadd
          subst hnt
          simp only [Except.ok.injEq, Prod.mk.injEq] at h
          obtain ⟨hq, heffs, hev⟩ := h
          subst hq; subst heffs; subst hev
          have hcap : (checked_add p.total_sold
              (lam / p.sol_price_lamports_per_nlov * 10 ^ dec)).getD (U64_LIMIT - 1)
              ≤ p.hardcap_tokens := by assumption
          refine ⟨by assumption, hb, by assumption, hm, ha, ?_, by assumption, hpay, rfl, rfl⟩
          simpa [checked_add, ha] using hcap

theorem buy_stable_ok (p : Presale)
    (buyer pt amount dec scdec mint bacct macct amt : Nat) (tOk : Bool)
    (q : Presale) (effs : List Effect) (ev : BuyTokensByStableCoinEvent)
    (h : buy_tokens_by_stable_coin p buyer pt amount dec scdec mint bacct macct amt tOk
        = .ok (q, effs, ev)) :
    (mint = USDC_ADDRESS ∨ mint = USDT_ADDRESS) ∧
    1 ≤ amount ∧
    (p.sale_stage = 1 ∨ p.sale_stage = 2) ∧
    amount * 10 ^ scdec < U64_LIMIT ∧
    amount * 100 < U64_LIMIT ∧
    p.usd_price_cents_per_nlov ≠ 0 ∧
    (amount * 100 / p.usd_price_cents_per_nlov) * 10 ^ dec < U64_LIMIT ∧
    p.total_sold + (amount * 100 / p.usd_price_cents_per_nlov) * 10 ^ dec < U64_LIMIT ∧
    p.total_sold + (amount * 100 / p.usd_price_cents_per_nlov) * 10 ^ dec
      ≤ p.hardcap_tokens ∧
    (amount * 100 / p.usd_price_cents_per_nlov) * 10 ^ dec ≤ amt - p.total_sold ∧
    stable_payment bacct macct pt (amount * 10 ^ scdec) tOk = .ok effs ∧
    q = { p with total_sold :=
            p.total_sold + (amount * 100 / p.usd_price_cents_per_nlov) * 10 ^ dec } ∧
    ev = { buyer := buyer
           tokens_purchased := amount * 100 / p.usd_price_cents_per_nlov
           stable_coin_amount := amount
           payment_type := pt } := by
  unfold buy_tokens_by_stable_coin at h
  split at h
  case isFalse => simp_all
  split at h
  case isFalse => simp_all
  split at h
  case isFalse => simp_all
  split at h
  case h_1 => simp_all
  case h_2 sraw hsmul =>
    rw [checked_mul_eq_some] at hsmul
    obtain ⟨hsm, hsraw⟩ := hsmul
    subst hsraw
    split at h
    case h_1 => simp_all
    case h_2 cents hcmul =>
      rw [checked_mul_eq_some] at hcmul
      obtain ⟨hcm, hcents⟩ := hcmul
      subst hcents
      split at h
      case h_1 => simp_all
      case h_2 u hdiv =>
        rw [checked_div_eq_some] at hdiv
        obtain ⟨hb, hu⟩ := hdiv
        subst hu
        split at h
        case h_1 => simp_all
        case h_2 raw hmul =>
          rw [checked_mul_eq_some] at hmul
          obtain ⟨hm, hraw⟩ := hmul
          subst hraw
          split at h
          case isFalse => simp_all
          split at h
          case isFalse => simp_all
          split at h
          case h_1 => simp_all
          case h_2 effects hpay =>
            split at h
            case h_1 => simp_all [checked_add_eq_some]
            case h_2 nt hadd =>
              rw [checked_add_eq_some] at hadd
              obtain ⟨ha, hnt⟩ := hadd
              subst hnt
              simp only [Except.ok.injEq, Prod.mk.injEq] at h
              obtain ⟨hq, heffs, hev⟩ := h
              subst hq; subst heffs; subst hev
              have hcap : (checked_add p.total_sold
                  (amount * 100 / p.usd_price_cents_per_nlov * 10 ^ dec)).getD
                  (U64_LIMIT - 1) ≤ p.hardcap_tokens := by assumption
              refine ⟨by assumption, by assumption, by assumption, hsm, hcm, hb, hm, ha,
                ?_, by assumption, hpay, rfl, rfl⟩
              simpa [checked_add, ha] using hcap

theorem finalize_presale_ok (p : Presale) (caller dec amt lw : Nat) (tOk : Bool)
    (q : Presale) (effs : List Effect) (ev : FinalizePresaleEvent)
    (h : finalize_presale p caller dec amt lw tOk = .ok (q, effs, ev)) :
    p.admin = caller ∧ p.sale_stage = 3 ∧ p.pool_created = false ∧
    q = { p with pool_created := true } ∧
    ((0 < amt - p.total_sold ∧ tOk = true ∧
      effs = [Effect.tokenTransfer p.presale_wallet lw (amt - p.total_sold)]) ∨
     (amt - p.total_sold = 0 ∧ effs = [])) ∧
    ev = { admin := caller
           unsold_presale_tokens := (amt - p.total_sold) / 10 ^ dec } := by
  unfold finalize_presale at h
  split at h
  case isFalse => simp_all
  split at h
  case isFalse => simp_all
  split at h
  case isTrue => simp_all
  split at h <;> simp_all <;> (split at h <;> simp_all)

theorem set_stage_ok (p : Presale) (caller : Nat) (now : Int) (q : Presale)
    (h : set_stage p caller now = .ok q) :
    p.admin = caller ∧
    ((p.sale_stage = 0 ∧ q = { p with presale_start := now, sale_stage := 1 }) ∨
     (p.sale_stage = 1 ∧ q = { p with sale_stage := 2 }) ∨
     (p.sale_stage = 2 ∧ q = { p with sale_stage := 3 })) := by
  unfold set_stage at h
  split at h
  · split at h <;> (try split at h) <;> simp_all
  · simp_all

theorem set_stage_err (p : Presale) (caller : Nat) (now : Int) (e : TxError)
    (q : Presale) (h : set_stage p caller now = .error (e, q)) : q = p := by
  unfold set_stage at h
  repeat' split at h
  all_goals simp_all

theorem update_sale_period_err (p : Presale) (caller : Nat) (dpriv dpub : Int)
    (e : TxError) (q : Presale)
    (h : update_sale_period p caller dpriv dpub = .error (e, q)) : q = p := by
  unfold update_sale_period at h
  repeat' split at h
  all_goals simp_all

theorem update_sale_price_err (p : Presale) (caller usd sol : Nat)
    (e : TxError) (q : Presale)
    (h : update_sale_price p caller usd sol = .error (e, q)) : q = p := by
  unfold update_sale_price at h
  repeat' split at h
  all_goals simp_all

theorem buy_tokens_err (p : Presale) (buyer pt lam dec amt : Nat) (tOk : Bool)
    (e : TxError) (q : Presale)
    (h : buy_tokens p buyer pt lam dec amt tOk = .error (e, q)) : q = p := by
  unfold buy_tokens at h
  repeat' split at h
  all_goals simp_all

theorem buy_stable_err (p : Presale)
    (buyer pt amount dec scdec mint bacct macct amt : Nat) (tOk : Bool)
    (e : TxError) (q : Presale)
    (h : buy_tokens_by_stable_coin p buyer pt amount dec scdec mint bacct macct amt tOk
        = .error (e, q)) : q = p := by
  unfold buy_tokens_by_stable_coin at h
  repeat' split at h
  all_goals simp_all

theorem finalize_presale_err (p : Presale) (caller dec amt lw : Nat) (tOk : Bool)
    (e : TxError) (q : Presale)
    (h : finalize_presale p caller dec amt lw tOk = .error (e, q)) : q = p := by
  unfold finalize_presale at h
  repeat' split at h
  all_goals simp_all
  all_goals (split at h <;> simp_all)

theorem buy_tokens_success (p : Presale) (buyer pt lam dec amt : Nat) (tOk : Bool)
    (effs : List Effect)
    (hstage : p.sale_stage = 1 ∨ p.sale_stage = 2)
    (hb : p.sol_price_lamports_per_nlov ≠ 0)
    (hq : 1 ≤ lam / p.sol_price_lamports_per_nlov)
    (hm : (lam / p.sol_price_lamports_per_nlov) * 10 ^ dec < U64_LIMIT)
    (ha : p.total_sold + (lam / p.sol_price_lamports_per_nlov) * 10 ^ dec < U64_LIMIT)
    (hcap : p.total_sold + (lam / p.sol_price_lamports_per_nlov) * 10 ^ dec
      ≤ p.hardcap_tokens)
    (hinv : (lam / p.sol_price_lamports_per_nlov) * 10 ^ dec ≤ amt - p.total_sold)
    (hpay : sol_payment buyer p.merchant_wallet pt lam tOk = .ok effs) :
    buy_tokens p buyer pt lam dec amt tOk =
      .ok ({ p with total_sold :=
               p.total_sold + (lam / p.sol_price_lamports_per_nlov) * 10 ^ dec },
           effs,
           { buyer := buyer
             tokens_purchased := lam / p.sol_price_lamports_per_nlov
             sol_spent := lam
             sol_price_lamports_per_nlov := p.sol_price_lamports_per_nlov
             payment_type := pt }) := by
  have hdiv : checked_div lam p.sol_price_lamports_per_nlov
      = some (lam / p.sol_price_lamports_per_nlov) := by simp [checked_div, hb]
  have hmul : checked_mul (lam / p.sol_price_lamports_per_nlov) (10 ^ dec)
      = some ((lam / p.sol_price_lamports_per_nlov) * 10 ^ dec) := by
    simp [checked_mul, hm]
  have hadd : checked_add p.total_sold
      ((lam / p.sol_price_lamports_per_nlov) * 10 ^ dec)
      = some (p.total_sold + (lam / p.sol_price_lamports_per_nlov) * 10 ^ dec) := by
    simp [checked_add, ha]
  simp [buy_tokens, hdiv, hmul, hadd, hstage, hq, hcap, hinv, hpay]

theorem buy_stable_success (p : Presale)
    (buyer pt amount dec scdec mint bacct macct amt : Nat) (tOk : Bool)
    (effs : List Effect)
    (hmint : mint = USDC_ADDRESS ∨ mint = USDT_ADDRESS)
    (hamount : 1 ≤ amount)
    (hstage : p.sale_stage = 1 ∨ p.sale_stage = 2)
    (hsm : amount * 10 ^ scdec < U64_LIMIT)
    (hcm : amount * 100 < U64_LIMIT)
    (hb : p.usd_price_cents_per_nlov ≠ 0)
    (hm : (amount * 100 / p.usd_price_cents_per_nlov) * 10 ^ dec < U64_LIMIT)
    (ha : p.total_sold + (amount * 100 / p.usd_price_cents_per_nlov) * 10 ^ dec
      < U64_LIMIT)
    (hcap : p.total_sold + (amount * 100 / p.usd_price_cents_per_nlov) * 10 ^ dec
      ≤ p.hardcap_tokens)
    (hinv : (amount * 100 / p.usd_price_cents_per_nlov) * 10 ^ dec
      ≤ amt - p.total_sold)
    (hpay : stable_payment bacct macct pt (amount * 10 ^ scdec) tOk = .ok effs) :
    buy_tokens_by_stable_coin p buyer pt amount dec scdec mint bacct macct amt tOk =
      .ok ({ p with total_sold :=
               p.total_sold + (amount * 100 / p.usd_price_cents_per_nlov) * 10 ^ dec },
           effs,
           { buyer := buyer
             tokens_purchased := amount * 100 / p.usd_price_cents_per_nlov
             stable_coin_amount := amount
             payment_type := pt }) := by
  have hsmul : checked_mul amount (10 ^ scdec) = some (amount * 10 ^ scdec) := by
    simp [checked_mul, hsm]
  have hcmul : checked_mul amount 100 = some (amount * 100) := by
    simp [checked_mul, hcm]
  have hdiv : checked_div (amount * 100) p.usd_price_cents_per_nlov
      = some (amount * 100 / p.usd_price_cents_per_nlov) := by simp [checked_div, hb]
  have hmul : checked_mul (amount * 100 / p.usd_price_cents_per_nlov) (10 ^ dec)
      = some ((amount * 100 / p.usd_price_cents_per_nlov) * 10 ^ dec) := by
    simp [checked_mul, hm]
  have hadd : checked_add p.total_sold
      ((amount * 100 / p.usd_price_cents_per_nlov) * 10 ^ dec)
      = some (p.total_sold + (amount * 100 / p.usd_price_cents_per_nlov) * 10 ^ dec) := by
    simp [checked_add, ha]
  simp [buy_tokens_by_stable_coin, hmint, hamount, hstage, hsmul, hcmul, hdiv, hmul,
    hadd, hcap, hinv, hpay]

/-- C4: `set_stage` is exactly the four-case stage machine: `Unauthorized`
unless the caller is the admin; NotStarted(0) unconditionally moves to
Private(1) and stamps `presale_start := now`; Private(1) moves to Public(2)
iff the private duration has elapsed, else `PrivateSaleNotOver`; Public(2)
moves to Ended(3) iff both durations have elapsed, else `PublicSaleNotOver`;
Ended(3) always fails with `SaleAlreadyEnded`. -/
theorem c4_set_stage_state_machine :
    ∀ (p : Presale) (caller : Nat) (now : Int),
      (p.admin ≠ caller →
        set_stage p caller now = .error (.program .Unauthorized, p)) ∧
      (p.admin = caller → p.sale_stage = 0 →
        set_stage p caller now
          = .ok { p with presale_start := now, sale_stage := 1 }) ∧
      (p.admin = caller → p.sale_stage = 1 →
        (p.presale_start + p.private_sale_duration ≤ now →
          set_stage p caller now = .ok { p with sale_stage := 2 }) ∧
        (now < p.presale_start + p.private_sale_duration →
          set_stage p caller now = .error (.program .PrivateSaleNotOver, p))) ∧
      (p.admin = caller → p.sale_stage = 2 →
        (p.presale_start + p.private_sale_duration + p.public_sale_duration ≤ now →
          set_stage p caller now = .ok { p with sale_stage := 3 }) ∧
        (now < p.presale_start + p.private_sale_duration + p.public_sale_duration →
          set_stage p caller now = .error (.program .PublicSaleNotOver, p))) ∧
      (p.admin = caller → p.sale_stage = 3 →
        set_stage p caller now = .error (.program .SaleAlreadyEnded, p)) := by
  intro p caller now
  refine ⟨fun hne => by simp [set_stage, hne],
    fun ha h0 => by simp [set_stage, ha, h0],
    fun ha h1 => ⟨fun hle => by simp [set_stage, ha, h1, hle],
                  fun hlt => by simp [set_stage, ha, h1, not_le.mpr hlt]⟩,
    fun ha h2 => ⟨fun hle => by simp [set_stage, ha, h2, hle],
                  fun hlt => by simp [set_stage, ha, h2, not_le.mpr hlt]⟩,
    fun ha h3 => by simp [set_stage, ha, h3]⟩

/-- C4 witness: the theorem applied at concrete inputs: a non-admin caller
is rejected, `0 → 1` stamps the start time, and `3` always fails with
`SaleAlreadyEnded`. -/
theorem c4_witness :
    set_stage (mkState 3 182000000 0 0 1000) 1 0
      = .error (.program .Unauthorized, mkState 3 182000000 0 0 1000) ∧
    set_stage (mkState 3 182000000 0 0 1000) 0 0
      = .ok { mkState 3 182000000 0 0 1000 with presale_start := 0, sale_stage := 1 } ∧
    set_stage (mkState 3 182000000 3 0 1000) 0 0
      = .error (.program .SaleAlreadyEnded, mkState 3 182000000 3 0 1000) :=
  ⟨(c4_set_stage_state_machine (mkState 3 182000000 0 0 1000) 1 0).1 (by decide),
   (c4_set_stage_state_machine (mkState 3 182000000 0 0 1000) 0 0).2.1 (by decide) (by decide),
   (c4_set_stage_state_machine (mkState 3 182000000 3 0 1000) 0 0).2.2.2.2 (by decide) (by decide)⟩

/-- C5: every failing operation leaves the `Presale` record exactly as it
was before the call: the state carried by any `.error` outcome equals the
input state, for all six instruction handlers; in particular an
unauthorized `update_sale_price` fails with `Unauthorized` and both
prices are unchanged. -/
theorem c5_failure_no_partial_mutation :
    (∀ (p : Presale) (caller : Nat) (now : Int) (e : TxError) (q : Presale),
      set_stage p caller now = .error (e, q) → q = p) ∧
    (∀ (p : Presale) (caller : Nat) (dpriv dpub : Int) (e : TxError) (q : Presale),
      update_sale_period p caller dpriv dpub = .error (e, q) → q = p) ∧
    (∀ (p : Presale) (caller usd sol : Nat) (e : TxError) (q : Presale),
      update_sale_price p caller usd sol = .error (e, q) → q = p) ∧
    (∀ (p : Presale) (buyer pt lam dec amt : Nat) (tOk : Bool)
        (e : TxError) (q : Presale),
      buy_tokens p buyer pt lam dec amt tOk = .error (e, q) → q = p) ∧
    (∀ (p : Presale) (buyer pt amount dec scdec mint bacct macct amt : Nat)
        (tOk : Bool) (e : TxError) (q : Presale),
      buy_tokens_by_stable_coin p buyer pt amount dec scdec mint bacct macct amt tOk
        = .error (e, q) → q = p) ∧
    (∀ (p : Presale) (caller dec amt lw : Nat) (tOk : Bool)
        (e : TxError) (q : Presale),
      finalize_presale p caller dec amt lw tOk = .error (e, q) → q = p) ∧
    (∀ (p : Presale) (caller usd sol : Nat), p.admin ≠ caller →
      update_sale_price p caller usd sol = .error (.program .Unauthorized, p)) :=
  ⟨set_stage_err, update_sale_period_err, update_sale_price_err, buy_tokens_err,
   buy_stable_err, finalize_presale_err,
   fun p caller usd sol hne => by simp [update_sale_price, hne]⟩

/-- C5 witness: a failed `set_stage` and an unauthorized `update_sale_price`
at concrete inputs leave the concrete record unchanged. -/
theorem c5_witness :
    (mkState 3 182000000 1 5 1000) = (mkState 3 182000000 1 5 1000) ∧
    update_sale_price (mkState 3 182000000 1 5 1000) 9 7 8
      = .error (.program .Unauthorized, mkState 3 182000000 1 5 1000) :=
  ⟨c5_failure_no_partial_mutation.1 (mkState 3 182000000 1 5 1000) 9 0
     (.program .Unauthorized) (mkState 3 182000000 1 5 1000) (by rfl),
   c5_failure_no_partial_mutation.2.2.2.2.2.2 (mkState 3 182000000 1 5 1000) 9 7 8
     (by decide)⟩

/-- C6: the stage field is monotone: every successful instruction either
keeps `sale_stage` or advances it by exactly one; no instruction other
than `set_stage` ever changes it; and `set_stage` called by the admin on
a record in stage Ended(3) always fails with `SaleAlreadyEnded`. -/
theorem c6_stage_monotone :
    (∀ p q : Presale, Step p q →
      p.sale_stage ≤ q.sale_stage ∧
      (q.sale_stage = p.sale_stage ∨ q.sale_stage = p.sale_stage + 1)) ∧
    (∀ (p : Presale) (caller : Nat) (dpriv dpub : Int) (q : Presale),
      update_sale_period p caller dpriv dpub = .ok q →
        q.sale_stage = p.sale_stage) ∧
    (∀ (p : Presale) (caller usd sol : Nat) (q : Presale) (ev : UpdateSalePriceEvent),
      update_sale_price p caller usd sol = .ok (q, ev) →
        q.sale_stage = p.sale_stage) ∧
    (∀ (p : Presale) (buyer pt lam dec amt : Nat) (tOk : Bool) (q : Presale)
        (effs : List Effect) (ev : BuyTokensEvent),
      buy_tokens p buyer pt lam dec amt tOk = .ok (q, effs, ev) →
        q.sale_stage = p.sale_stage) ∧
    (∀ (p : Presale) (buyer pt amount dec scdec mint bacct macct amt : Nat)
        (tOk : Bool) (q : Presale) (effs : List Effect)
        (ev : BuyTokensByStableCoinEvent),
      buy_tokens_by_stable_coin p buyer pt amount dec scdec mint bacct macct amt tOk
        = .ok (q, effs, ev) → q.sale_stage = p.sale_stage) ∧
    (∀ (p : Presale) (caller dec amt lw : Nat) (tOk : Bool) (q : Presale)
        (effs : List Effect) (ev : FinalizePresaleEvent),
      finalize_presale p caller dec amt lw tOk = .ok (q, effs, ev) →
        q.sale_stage = p.sale_stage) ∧
    (∀ (p : Presale) (caller : Nat) (now : Int),
      p.admin = caller → p.sale_stage = 3 →
      set_stage p caller now = .error (.program .SaleAlreadyEnded, p)) := by
  refine ⟨?_, ?_, ?_, ?_, ?_, ?_, ?_⟩
  · intro p q hstep
    cases hstep with
    | set_stage_step caller now q h =>
      obtain ⟨-, hc⟩ := set_stage_ok p caller now q h
      rcases hc with ⟨h0, rfl⟩ | ⟨h0, rfl⟩ | ⟨h0, rfl⟩ <;> simp [h0]
    | update_sale_period_step caller dpriv dpub q h =>
      obtain ⟨-, -, rfl⟩ := update_sale_period_ok p caller dpriv dpub q h
      simp
    | update_sale_price_step caller usd sol q ev h =>
      obtain ⟨-, -, rfl⟩ := update_sale_price_ok p caller usd sol q ev h
      simp
    | buy_tokens_step buyer pt lam dec amt tOk q effs ev h =>
      have hq := (buy_tokens_ok p buyer pt lam dec amt tOk q effs ev h).2.2.2.2.2.2.2.2.1
      subst hq; simp
    | buy_stable_step buyer pt amount dec scdec mint bacct macct amt tOk q effs ev h =>
      have hq := (buy_stable_ok p buyer pt amount dec scdec mint bacct macct amt tOk
        q effs ev h).2.2.2.2.2.2.2.2.2.2.2.1
      subst hq; simp
    | finalize_step caller dec amt lw tOk q effs ev h =>
      have hq := (finalize_presale_ok p caller dec amt lw tOk q effs ev h).2.2.2.1
      subst hq; simp
  · intro p caller dpriv dpub q h
    obtain ⟨-, -, rfl⟩ := update_sale_period_ok p caller dpriv dpub q h; rfl
  · intro p caller usd sol q ev h
    obtain ⟨-, -, rfl⟩ := update_sale_price_ok p caller usd sol q ev h; rfl
  · intro p buyer pt lam dec amt tOk q effs ev h
    have hq := (buy_tokens_ok p buyer pt lam dec amt tOk q effs ev h).2.2.2.2.2.2.2.2.1
    subst hq; rfl
  · intro p buyer pt amount dec scdec mint bacct macct amt tOk q effs ev h
    have hq := (buy_stable_ok p buyer pt amount dec scdec mint bacct macct amt tOk
      q effs ev h).2.2.2.2.2.2.2.2.2.2.2.1
    subst hq; rfl
  · intro p caller dec amt lw tOk q effs ev h
    have hq := (finalize_presale_ok p caller dec amt lw tOk q effs ev h).2.2.2.1
    subst hq; rfl
  · intro p caller now ha h3
    simp [set_stage, ha, h3]

/-- C6 witness: a concrete successful `set_stage` step advances the stage
by exactly one, and `set_stage` on a concrete Ended record fails with
`SaleAlreadyEnded`. -/
theorem c6_witness :
    ((mkState 3 182000000 0 0 1000).sale_stage
        ≤ (mkState 3 182000000 1 0 1000).sale_stage ∧
      ((mkState 3 182000000 1 0 1000).sale_stage
          = (mkState 3 182000000 0 0 1000).sale_stage ∨
        (mkState 3 182000000 1 0 1000).sale_stage
          = (mkState 3 182000000 0 0 1000).sale_stage + 1)) ∧
    set_stage (mkState 3 182000000 3 0 1000) 0 0
      = .error (.program .SaleAlreadyEnded, mkState 3 182000000 3 0 1000) :=
  ⟨c6_stage_monotone.1 (mkState 3 182000000 0 0 1000) (mkState 3 182000000 1 0 1000)
     (Step.set_stage_step (mkState 3 182000000 0 0 1000) 0 0
       (mkState 3 182000000 1 0 1000) (by rfl)),
   c6_stage_monotone.2.2.2.2.2.2 (mkState 3 182000000 3 0 1000) 0 0
     (by decide) (by decide)⟩

theorem step_preserves_cap (p q : Presale) (hstep : Step p q)
    (hcap : p.total_sold ≤ p.hardcap_tokens) :
    q.total_sold ≤ q.hardcap_tokens := by
  cases hstep with
  | set_stage_step caller now q h =>
    obtain ⟨-, hc⟩ := set_stage_ok p caller now q h
    rcases hc with ⟨-, rfl⟩ | ⟨-, rfl⟩ | ⟨-, rfl⟩ <;> simpa using hcap
  | update_sale_period_step caller dpriv dpub q h =>
    obtain ⟨-, -, rfl⟩ := update_sale_period_ok p caller dpriv dpub q h
    simpa using hcap
  | update_sale_price_step caller usd sol q ev h =>
    obtain ⟨-, -, rfl⟩ := update_sale_price_ok p caller usd sol q ev h
    simpa using hcap
  | buy_tokens_step buyer pt lam dec amt tOk q effs ev h =>
    have hok := buy_tokens_ok p buyer pt lam dec amt tOk q effs ev h
    have hq := hok.2.2.2.2.2.2.2.2.1
    have hle := hok.2.2.2.2.2.1
    subst hq; simpa using hle
  | buy_stable_step buyer pt amount dec scdec mint bacct macct amt tOk q effs ev h =>
    have hok := buy_stable_ok p buyer pt amount dec scdec mint bacct macct amt tOk
      q effs ev h
    have hq := hok.2.2.2.2.2.2.2.2.2.2.2.1
    have hle := hok.2.2.2.2.2.2.2.2.1
    subst hq; simpa using hle
  | finalize_step caller dec amt lw tOk q effs ev h =>
    have hq := (finalize_presale_ok p caller dec amt lw tOk q effs ev h).2.2.2.1
    subst hq; simpa using hcap

/-- C2: in every state reachable from initialization by any sequence of
successful instructions, `total_sold ≤ hardcap_tokens` holds. -/
theorem c2_total_sold_le_hardcap :
    ∀ p : Presale, Reachable p → p.total_sold ≤ p.hardcap_tokens := by
  intro p hreach
  obtain ⟨a, usd, sol, dpriv, dpub, cap, now, w, m, b, h⟩ := hreach
  induction h with
  | refl => simp [init_presale]
  | tail hab hstep ih => exact step_preserves_cap _ _ hstep ih

/-- C2 witness: a freshly initialized record is reachable and satisfies
the hardcap invariant. -/
theorem c2_witness :
    Reachable (mkState 3 182000000 0 0 1000) ∧
    (mkState 3 182000000 0 0 1000).total_sold
      ≤ (mkState 3 182000000 0 0 1000).hardcap_tokens :=
  have hr : Reachable (mkState 3 182000000 0 0 1000) :=
    ⟨0, 3, 182000000, 7, 14, 1000, 0, 11, 12, 255, Relation.ReflTransGen.refl⟩
  ⟨hr, c2_total_sold_le_hardcap (mkState 3 182000000 0 0 1000) hr⟩

/-- C7: a successful `buy_tokens` credits exactly
`floor(lamports_sent / sol_price_lamports_per_nlov)` user-unit tokens in
the emitted event and adds that quotient times `10 ^ token_decimals` to
`total_sold`. -/
theorem c7_native_conversion :
    ∀ (p : Presale) (buyer pt lam dec amt : Nat) (tOk : Bool) (q : Presale)
      (effs : List Effect) (ev : BuyTokensEvent),
      buy_tokens p buyer pt lam dec amt tOk = .ok (q, effs, ev) →
      ev.tokens_purchased = lam / p.sol_price_lamports_per_nlov ∧
      q.total_sold = p.total_sold
        + (lam / p.sol_price_lamports_per_nlov) * 10 ^ dec := by
  intro p buyer pt lam dec amt tOk q effs ev h
  obtain ⟨-, -, -, -, -, -, -, -, hq, hev⟩ :=
    buy_tokens_ok p buyer pt lam dec amt tOk q effs ev h
  subst hq; subst hev
  exact ⟨rfl, rfl⟩

/-- C7 witness: at price 182_000_000 lamports/token, a purchase of
1_820_000_000 lamports credits 1_820_000_000 / 182_000_000 = 10 tokens
and raises `total_sold` by 10 × 10^9 for a 9-decimal mint. -/
theorem c7_witness :
    ({ buyer := 7, tokens_purchased := 10, sol_spent := 1820000000,
       sol_price_lamports_per_nlov := 182000000, payment_type := 0 } :
        BuyTokensEvent).tokens_purchased
      = 1820000000 / 182000000 ∧
    (mkState 3 182000000 1 10000000000 1000000000000000000).total_sold
      = (mkState 3 182000000 1 0 1000000000000000000).total_sold
        + (1820000000 / 182000000) * 10 ^ 9 :=
  c7_native_conversion (mkState 3 182000000 1 0 1000000000000000000) 7 0 1820000000 9
    1000000000000000 true (mkState 3 182000000 1 10000000000 1000000000000000000)
    [Effect.solTransfer 7 12 1820000000]
    { buyer := 7, tokens_purchased := 10, sol_spent := 1820000000,
      sol_price_lamports_per_nlov := 182000000, payment_type := 0 } (by rfl)

/-- C8: a successful `buy_tokens_by_stable_coin` credits exactly
`floor(stable_coin_amount_user_units * 100 / usd_price_cents_per_nlov)`
tokens (1 stable user-unit ≡ 100 cents, whatever the stable coin's
decimals) and adds that quotient times `10 ^ token_decimals` to
`total_sold`; in particular the credited amount is independent of the
stable coin's decimal count. -/
theorem c8_stable_conversion :
    (∀ (p : Presale) (buyer pt amount dec scdec mint bacct macct amt : Nat)
        (tOk : Bool) (q : Presale) (effs : List Effect)
        (ev : BuyTokensByStableCoinEvent),
      buy_tokens_by_stable_coin p buyer pt amount dec scdec mint bacct macct amt tOk
        = .ok (q, effs, ev) →
      ev.tokens_purchased = amount * 100 / p.usd_price_cents_per_nlov ∧
      q.total_sold = p.total_sold
        + (amount * 100 / p.usd_price_cents_per_nlov) * 10 ^ dec) ∧
    (∀ (p : Presale) (buyer pt amount dec scdec1 scdec2 mint bacct macct amt : Nat)
        (tOk : Bool) (q1 q2 : Presale) (effs1 effs2 : List Effect)
        (ev1 ev2 : BuyTokensByStableCoinEvent),
      buy_tokens_by_stable_coin p buyer pt amount dec scdec1 mint bacct macct amt tOk
        = .ok (q1, effs1, ev1) →
      buy_tokens_by_stable_coin p buyer pt amount dec scdec2 mint bacct macct amt tOk
        = .ok (q2, effs2, ev2) →
      ev1.tokens_purchased = ev2.tokens_purchased ∧
      q1.total_sold = q2.total_sold) := by
  have main : ∀ (p : Presale) (buyer pt amount dec scdec mint bacct macct amt : Nat)
      (tOk : Bool) (q : Presale) (effs : List Effect)
      (ev : BuyTokensByStableCoinEvent),
      buy_tokens_by_stable_coin p buyer pt amount dec scdec mint bacct macct amt tOk
        = .ok (q, effs, ev) →
      ev.tokens_purchased = amount * 100 / p.usd_price_cents_per_nlov ∧
      q.total_sold = p.total_sold
        + (amount * 100 / p.usd_price_cents_per_nlov) * 10 ^ dec := by
    intro p buyer pt amount dec scdec mint bacct macct amt tOk q effs ev h
    obtain ⟨-, -, -, -, -, -, -, -, -, -, -, hq, hev⟩ :=
      buy_stable_ok p buyer pt amount dec scdec mint bacct macct amt tOk q effs ev h
    subst hq; subst hev
    exact ⟨rfl, rfl⟩
  refine ⟨main, ?_⟩
  intro p buyer pt amount dec scdec1 scdec2 mint bacct macct amt tOk
    q1 q2 effs1 effs2 ev1 ev2 h1 h2
  obtain ⟨he1, hq1⟩ := main p buyer pt amount dec scdec1 mint bacct macct amt tOk
    q1 effs1 ev1 h1
  obtain ⟨he2, hq2⟩ := main p buyer pt amount dec scdec2 mint bacct macct amt tOk
    q2 effs2 ev2 h2
  exact ⟨he1.trans he2.symm, hq1.trans hq2.symm⟩

/-- C8 witness: with price 3 cents/token, 3 USDC (6 decimals) buys
3 × 100 / 3 = 100 tokens, raising `total_sold` by 100 × 10^9; a 0-decimal
stable asset with the same user amount buys the same 100 tokens. -/
theorem c8_witness :
    ({ buyer := 7, tokens_purchased := 100, stable_coin_amount := 3,
       payment_type := 0 } : BuyTokensByStableCoinEvent).tokens_purchased
      = 3 * 100 / 3 ∧
    (mkState 3 182000000 1 100000000000 1000000000000000000).total_sold
      = (mkState 3 182000000 1 0 1000000000000000000).total_sold
        + (3 * 100 / 3) * 10 ^ 9 :=
  c8_stable_conversion.1 (mkState 3 182000000 1 0 1000000000000000000) 7 0 3 9 6
    USDC_ADDRESS 21 22 1000000000000000 true
    (mkState 3 182000000 1 100000000000 1000000000000000000)
    [Effect.tokenTransfer 21 22 3000000]
    { buyer := 7, tokens_purchased := 100, stable_coin_amount := 3,
      payment_type := 0 } (by rfl)

/-- C10: a successful purchase on either rail changes only `total_sold`
(raised by the credited user units times `10 ^ token_decimals`); every
other field of the record is unchanged, the only transfer requested is
the payment itself (buyer to merchant), and the token credit appears
only in the emitted event. -/
theorem c10_purchase_frame :
    (∀ (p : Presale) (buyer pt lam dec amt : Nat) (tOk : Bool) (q : Presale)
        (effs : List Effect) (ev : BuyTokensEvent),
      buy_tokens p buyer pt lam dec amt tOk = .ok (q, effs, ev) →
      q.total_sold = p.total_sold + ev.tokens_purchased * 10 ^ dec ∧
      q.admin = p.admin ∧ q.presale_start = p.presale_start ∧
      q.usd_price_cents_per_nlov = p.usd_price_cents_per_nlov ∧
      q.sol_price_lamports_per_nlov = p.sol_price_lamports_per_nlov ∧
      q.private_sale_duration = p.private_sale_duration ∧
      q.public_sale_duration = p.public_sale_duration ∧
      q.sale_stage = p.sale_stage ∧ q.hardcap_tokens = p.hardcap_tokens ∧
      q.pool_created = p.pool_created ∧ q.presale_wallet = p.presale_wallet ∧
      q.merchant_wallet = p.merchant_wallet ∧ q.bump = p.bump ∧
      ((pt = 0 ∧ effs = [Effect.solTransfer buyer p.merchant_wallet lam]) ∨
       (pt = 1 ∧ effs = []))) ∧
    (∀ (p : Presale) (buyer pt amount dec scdec mint bacct macct amt : Nat)
        (tOk : Bool) (q : Presale) (effs : List Effect)
        (ev : BuyTokensByStableCoinEvent),
      buy_tokens_by_stable_coin p buyer pt amount dec scdec mint bacct macct amt tOk
        = .ok (q, effs, ev) →
      q.total_sold = p.total_sold + ev.tokens_purchased * 10 ^ dec ∧
      q.admin = p.admin ∧ q.presale_start = p.presale_start ∧
      q.usd_price_cents_per_nlov = p.usd_price_cents_per_nlov ∧
      q.sol_price_lamports_per_nlov = p.sol_price_lamports_per_nlov ∧
      q.private_sale_duration = p.private_sale_duration ∧
      q.public_sale_duration = p.public_sale_duration ∧
      q.sale_stage = p.sale_stage ∧ q.hardcap_tokens = p.hardcap_tokens ∧
      q.pool_created = p.pool_created ∧ q.presale_wallet = p.presale_wallet ∧
      q.merchant_wallet = p.merchant_wallet ∧ q.bump = p.bump ∧
      ((pt = 0 ∧
          effs = [Effect.tokenTransfer bacct macct (amount * 10 ^ scdec)]) ∨
       (pt = 1 ∧ effs = []))) := by
  constructor
  · intro p buyer pt lam dec amt tOk q effs ev h
    obtain ⟨-, -, -, -, -, -, -, hpay, hq, hev⟩ :=
      buy_tokens_ok p buyer pt lam dec amt tOk q effs ev h
    subst hq; subst hev
    refine ⟨rfl, rfl, rfl, rfl, rfl, rfl, rfl, rfl, rfl, rfl, rfl, rfl, rfl, ?_⟩
    rcases sol_payment_ok buyer p.merchant_wallet pt lam tOk effs hpay with
      ⟨h0, -, heffs⟩ | ⟨h1, heffs⟩
    · exact Or.inl ⟨h0, heffs⟩
    · exact Or.inr ⟨h1, heffs⟩
  · intro p buyer pt amount dec scdec mint bacct macct amt tOk q effs ev h
    obtain ⟨-, -, -, -, -, -, -, -, -, -, hpay, hq, hev⟩ :=
      buy_stable_ok p buyer pt amount dec scdec mint bacct macct amt tOk q effs ev h
    subst hq; subst hev
    refine ⟨rfl, rfl, rfl, rfl, rfl, rfl, rfl, rfl, rfl, rfl, rfl, rfl, rfl, ?_⟩
    rcases stable_payment_ok bacct macct pt (amount * 10 ^ scdec) tOk effs hpay with
      ⟨h0, -, heffs⟩ | ⟨h1, heffs⟩
    · exact Or.inl ⟨h0, heffs⟩
    · exact Or.inr ⟨h1, heffs⟩

/-- C10 witness: the frame property applied to a concrete successful
native purchase: only `total_sold` changed and the single effect is the
buyer-to-merchant SOL payment. -/
theorem c10_witness :
    (mkState 3 182000000 1 10000000000 1000000000000000000).total_sold
      = (mkState 3 182000000 1 0 1000000000000000000).total_sold + 10 * 10 ^ 9 ∧
    (mkState 3 182000000 1 10000000000 1000000000000000000).admin
      = (mkState 3 182000000 1 0 1000000000000000000).admin ∧
    (mkState 3 182000000 1 10000000000 1000000000000000000).presale_start
      = (mkState 3 182000000 1 0 1000000000000000000).presale_start ∧
    (mkState 3 182000000 1 10000000000 1000000000000000000).usd_price_cents_per_nlov
      = (mkState 3 182000000 1 0 1000000000000000000).usd_price_cents_per_nlov ∧
    (mkState 3 182000000 1 10000000000 1000000000000000000).sol_price_lamports_per_nlov
      = (mkState 3 182000000 1 0 1000000000000000000).sol_price_lamports_per_nlov ∧
    (mkState 3 182000000 1 10000000000 1000000000000000000).private_sale_duration
      = (mkState 3 182000000 1 0 1000000000000000000).private_sale_duration ∧
    (mkState 3 182000000 1 10000000000 1000000000000000000).public_sale_duration
      = (mkState 3 182000000 1 0 1000000000000000000).public_sale_duration ∧
    (mkState 3 182000000 1 10000000000 1000000000000000000).sale_stage
      = (mkState 3 182000000 1 0 1000000000000000000).sale_stage ∧
    (mkState 3 182000000 1 10000000000 1000000000000000000).hardcap_tokens
      = (mkState 3 182000000 1 0 1000000000000000000).hardcap_tokens ∧
    (mkState 3 182000000 1 10000000000 1000000000000000000).pool_created
      = (mkState 3 182000000 1 0 1000000000000000000).pool_created ∧
    (mkState 3 182000000 1 10000000000 1000000000000000000).presale_wallet
      = (mkState 3 182000000 1 0 1000000000000000000).presale_wallet ∧
    (mkState 3 182000000 1 10000000000 1000000000000000000).merchant_wallet
      = (mkState 3 182000000 1 0 1000000000000000000).merchant_wallet ∧
    (mkState 3 182000000 1 10000000000 1000000000000000000).bump
      = (mkState 3 182000000 1 0 1000000000000000000).bump ∧
    ((0 = 0 ∧ ([Effect.solTransfer 7 12 1820000000] : List Effect)
        = [Effect.solTransfer 7
             (mkState 3 182000000 1 0 1000000000000000000).merchant_wallet
             1820000000]) ∨
     (0 = 1 ∧ ([Effect.solTransfer 7 12 1820000000] : List Effect) = [])) :=
  c10_purchase_frame.1 (mkState 3 182000000 1 0 1000000000000000000) 7 0 1820000000 9
    1000000000000000 true (mkState 3 182000000 1 10000000000 1000000000000000000)
    [Effect.solTransfer 7 12 1820000000]
    { buyer := 7, tokens_purchased := 10, sol_spent := 1820000000,
      sol_price_lamports_per_nlov := 182000000, payment_type := 0 } (by rfl)

/-- C9: `finalize_presale` requires admin, stage Ended(3) and the pool
flag unset, failing with `Unauthorized`, `PresaleActive`,
`LiquidityPoolAlreadyCreated` respectively; on success it transfers
exactly the saturating difference between the presale-wallet balance and
`total_sold` (no transfer when that difference is 0) and sets
`pool_created`, so a second call always fails with
`LiquidityPoolAlreadyCreated` without invoking the transfer collaborator
(the outcome is the same error for every transfer oracle). -/
theorem c9_finalize_guards :
    (∀ (p : Presale) (caller dec amt lw : Nat) (tOk : Bool),
      p.admin ≠ caller →
      finalize_presale p caller dec amt lw tOk
        = .error (.program .Unauthorized, p)) ∧
    (∀ (p : Presale) (caller dec amt lw : Nat) (tOk : Bool),
      p.admin = caller → p.sale_stage ≠ 3 →
      finalize_presale p caller dec amt lw tOk
        = .error (.program .PresaleActive, p)) ∧
    (∀ (p : Presale) (caller dec amt lw : Nat) (tOk : Bool),
      p.admin = caller → p.sale_stage = 3 → p.pool_created = true →
      finalize_presale p caller dec amt lw tOk
        = .error (.program .LiquidityPoolAlreadyCreated, p)) ∧
    (∀ (p : Presale) (caller dec amt lw : Nat) (tOk : Bool),
      p.admin = caller → p.sale_stage = 3 → p.pool_created = false →
      (0 < amt - p.total_sold → tOk = true →
        finalize_presale p caller dec amt lw tOk
          = .ok ({ p with pool_created := true },
                 [Effect.tokenTransfer p.presale_wallet lw (amt - p.total_sold)],
                 { admin := caller
                   unsold_presale_tokens := (amt - p.total_sold) / 10 ^ dec })) ∧
      (amt - p.total_sold = 0 →
        finalize_presale p caller dec amt lw tOk
          = .ok ({ p with pool_created := true }, [],
                 { admin := caller
                   unsold_presale_tokens := (amt - p.total_sold) / 10 ^ dec }))) ∧
    (∀ (p : Presale) (caller dec amt lw : Nat) (tOk : Bool) (q : Presale)
        (effs : List Effect) (ev : FinalizePresaleEvent),
      finalize_presale p caller dec amt lw tOk = .ok (q, effs, ev) →
      ∀ (dec2 amt2 lw2 : Nat) (tOk2 : Bool),
        finalize_presale q q.admin dec2 amt2 lw2 tOk2
          = .error (.program .LiquidityPoolAlreadyCreated, q)) := by
  refine ⟨?_, ?_, ?_, ?_, ?_⟩
  · intro p caller dec amt lw tOk hne
    simp [finalize_presale, hne]
  · intro p caller dec amt lw tOk ha hne3
    simp [finalize_presale, ha, hne3]
  · intro p caller dec amt lw tOk ha h3 hpool
    simp [finalize_presale, ha, h3, hpool]
  · intro p caller dec amt lw tOk ha h3 hpool
    constructor
    · intro hunsold htOk
      simp [finalize_presale, ha, h3, hpool, hunsold, htOk]
    · intro hzero
      simp [finalize_presale, ha, h3, hpool, hzero]
  · intro p caller dec amt lw tOk q effs ev h
    obtain ⟨-, h3, -, hq, -, -⟩ :=
      finalize_presale_ok p caller dec amt lw tOk q effs ev h
    subst hq
    intro dec2 amt2 lw2 tOk2
    simp [finalize_presale, h3]

/-- C9 witness: a concrete finalize on an Ended record moves the unsold
difference and a second call (for any transfer oracle it is the same)
fails with `LiquidityPoolAlreadyCreated`. -/
theorem c9_witness :
    finalize_presale (mkState 3 182000000 3 400 1000) 0 9 1000 33 true
      = .ok ({ mkState 3 182000000 3 400 1000 with pool_created := true },
             [Effect.tokenTransfer 11 33 600],
             { admin := 0, unsold_presale_tokens := 600 / 10 ^ 9 }) ∧
    finalize_presale { mkState 3 182000000 3 400 1000 with pool_created := true }
        0 9 1000 33 false
      = .error (.program .LiquidityPoolAlreadyCreated,
                { mkState 3 182000000 3 400 1000 with pool_created := true }) :=
  ⟨by
    have h := (c9_finalize_guards.2.2.2.1 (mkState 3 182000000 3 400 1000) 0 9 1000 33
      true (by rfl) (by rfl) (by rfl)).1 (by decide) (by rfl)
    simpa using h,
   c9_finalize_guards.2.2.2.2 (mkState 3 182000000 3 400 1000) 0 9 1000 33 true
     ({ mkState 3 182000000 3 400 1000 with pool_created := true })
     [Effect.tokenTransfer 11 33 600]
     { admin := 0, unsold_presale_tokens := 600 / 10 ^ 9 } (by rfl) 9 1000 33 false⟩

theorem buy_tokens_hardcap_err (p : Presale) (buyer pt lam dec amt : Nat) (tOk : Bool)
    (hstage : p.sale_stage = 1 ∨ p.sale_stage = 2)
    (hb : p.sol_price_lamports_per_nlov ≠ 0)
    (hq : 1 ≤ lam / p.sol_price_lamports_per_nlov)
    (hm : (lam / p.sol_price_lamports_per_nlov) * 10 ^ dec < U64_LIMIT)
    (ha : p.total_sold + (lam / p.sol_price_lamports_per_nlov) * 10 ^ dec < U64_LIMIT)
    (hgt : p.hardcap_tokens
      < p.total_sold + (lam / p.sol_price_lamports_per_nlov) * 10 ^ dec) :
    buy_tokens p buyer pt lam dec amt tOk
      = .error (.program .HardcapReached, p) := by
  have hdiv : checked_div lam p.sol_price_lamports_per_nlov
      = some (lam / p.sol_price_lamports_per_nlov) := by simp [checked_div, hb]
  have hmul : checked_mul (lam / p.sol_price_lamports_per_nlov) (10 ^ dec)
      = some ((lam / p.sol_price_lamports_per_nlov) * 10 ^ dec) := by
    simp [checked_mul, hm]
  have hadd : checked_add p.total_sold
      ((lam / p.sol_price_lamports_per_nlov) * 10 ^ dec)
      = some (p.total_sold + (lam / p.sol_price_lamports_per_nlov) * 10 ^ dec) := by
    simp [checked_add, ha]
  have hno : ¬ (p.total_sold + (lam / p.sol_price_lamports_per_nlov) * 10 ^ dec
      ≤ p.hardcap_tokens) := by omega
  simp [buy_tokens, hdiv, hmul, hadd, hstage, hq, hno]

theorem buy_stable_hardcap_err (p : Presale)
    (buyer pt amount dec scdec mint bacct macct amt : Nat) (tOk : Bool)
    (hmint : mint = USDC_ADDRESS ∨ mint = USDT_ADDRESS)
    (hamount : 1 ≤ amount)
    (hstage : p.sale_stage = 1 ∨ p.sale_stage = 2)
    (hsm : amount * 10 ^ scdec < U64_LIMIT)
    (hcm : amount * 100 < U64_LIMIT)
    (hb : p.usd_price_cents_per_nlov ≠ 0)
    (hm : (amount * 100 / p.usd_price_cents_per_nlov) * 10 ^ dec < U64_LIMIT)
    (ha : p.total_sold + (amount * 100 / p.usd_price_cents_per_nlov) * 10 ^ dec
      < U64_LIMIT)
    (hgt : p.hardcap_tokens
      < p.total_sold + (amount * 100 / p.usd_price_cents_per_nlov) * 10 ^ dec) :
    buy_tokens_by_stable_coin p buyer pt amount dec scdec mint bacct macct amt tOk
      = .error (.program .HardcapReached, p) := by
  have hsmul : checked_mul amount (10 ^ scdec) = some (amount * 10 ^ scdec) := by
    simp [checked_mul, hsm]
  have hcmul : checked_mul amount 100 = some (amount * 100) := by
    simp [checked_mul, hcm]
  have hdiv : checked_div (amount * 100) p.usd_price_cents_per_nlov
      = some (amount * 100 / p.usd_price_cents_per_nlov) := by simp [checked_div, hb]
  have hmul : checked_mul (amount * 100 / p.usd_price_cents_per_nlov) (10 ^ dec)
      = some ((amount * 100 / p.usd_price_cents_per_nlov) * 10 ^ dec) := by
    simp [checked_mul, hm]
  have hadd : checked_add p.total_sold
      ((amount * 100 / p.usd_price_cents_per_nlov) * 10 ^ dec)
      = some (p.total_sold + (amount * 100 / p.usd_price_cents_per_nlov) * 10 ^ dec) := by
    simp [checked_add, ha]
  have hno : ¬ (p.total_sold + (amount * 100 / p.usd_price_cents_per_nlov) * 10 ^ dec
      ≤ p.hardcap_tokens) := by omega
  simp [buy_tokens_by_stable_coin, hmint, hamount, hstage, hsmul, hcmul, hdiv, hmul,
    hadd, hno]

/-- C3: hardcap boundary exactness on both rails: with the other
preconditions satisfied (active stage, non-zero price and quotient, no
multiply overflow, a u64 wallet balance with sufficient unreserved
inventory, and a succeeding payment branch), a purchase making
`total_sold + tokens_raw` exactly equal to `hardcap_tokens` succeeds,
and one exceeding it by one raw unit fails with `HardcapReached` leaving
the record unchanged. -/
theorem c3_hardcap_boundary :
    (∀ (p : Presale) (buyer pt lam dec amt : Nat) (tOk : Bool) (effs : List Effect),
      (p.sale_stage = 1 ∨ p.sale_stage = 2) →
      p.sol_price_lamports_per_nlov ≠ 0 →
      1 ≤ lam / p.sol_price_lamports_per_nlov →
      (lam / p.sol_price_lamports_per_nlov) * 10 ^ dec < U64_LIMIT →
      amt < U64_LIMIT →
      (lam / p.sol_price_lamports_per_nlov) * 10 ^ dec ≤ amt - p.total_sold →
      sol_payment buyer p.merchant_wallet pt lam tOk = .ok effs →
      (p.total_sold + (lam / p.sol_price_lamports_per_nlov) * 10 ^ dec
          = p.hardcap_tokens →
        buy_tokens p buyer pt lam dec amt tOk
          = .ok ({ p with total_sold := p.hardcap_tokens }, effs,
                 { buyer := buyer
                   tokens_purchased := lam / p.sol_price_lamports_per_nlov
                   sol_spent := lam
                   sol_price_lamports_per_nlov := p.sol_price_lamports_per_nlov
                   payment_type := pt })) ∧
      (p.total_sold + (lam / p.sol_price_lamports_per_nlov) * 10 ^ dec
          = p.hardcap_tokens + 1 →
        buy_tokens p buyer pt lam dec amt tOk
          = .error (.program .HardcapReached, p))) ∧
    (∀ (p : Presale) (buyer pt amount dec scdec mint bacct macct amt : Nat)
        (tOk : Bool) (effs : List Effect),
      (mint = USDC_ADDRESS ∨ mint = USDT_ADDRESS) →
      1 ≤ amount →
      (p.sale_stage = 1 ∨ p.sale_stage = 2) →
      amount * 10 ^ scdec < U64_LIMIT →
      amount * 100 < U64_LIMIT →
      p.usd_price_cents_per_nlov ≠ 0 →
      1 ≤ amount * 100 / p.usd_price_cents_per_nlov →
      (amount * 100 / p.usd_price_cents_per_nlov) * 10 ^ dec < U64_LIMIT →
      amt < U64_LIMIT →
      (amount * 100 / p.usd_price_cents_per_nlov) * 10 ^ dec ≤ amt - p.total_sold →
      stable_payment bacct macct pt (amount * 10 ^ scdec) tOk = .ok effs →
      (p.total_sold + (amount * 100 / p.usd_price_cents_per_nlov) * 10 ^ dec
          = p.hardcap_tokens →
        buy_tokens_by_stable_coin p buyer pt amount dec scdec mint bacct macct amt tOk
          = .ok ({ p with total_sold := p.hardcap_tokens }, effs,
                 { buyer := buyer
                   tokens_purchased := amount * 100 / p.usd_price_cents_per_nlov
                   stable_coin_amount := amount
                   payment_type := pt })) ∧
      (p.total_sold + (amount * 100 / p.usd_price_cents_per_nlov) * 10 ^ dec
          = p.hardcap_tokens + 1 →
        buy_tokens_by_stable_coin p buyer pt amount dec scdec mint bacct macct amt tOk
          = .error (.program .HardcapReached, p))) := by
  constructor
  · intro p buyer pt lam dec amt tOk effs hstage hb hq hm hamt hinv hpay
    have hrawpos : 0 < (lam / p.sol_price_lamports_per_nlov) * 10 ^ dec :=
      Nat.mul_pos hq (pow_pos (by norm_num) dec)
    have ha : p.total_sold + (lam / p.sol_price_lamports_per_nlov) * 10 ^ dec
        < U64_LIMIT := by
      generalize hR : (lam / p.sol_price_lamports_per_nlov) * 10 ^ dec = R
        at hrawpos hinv
      omega
    constructor
    · intro heq
      have hres := buy_tokens_success p buyer pt lam dec amt tOk effs hstage hb hq hm
        ha (le_of_eq heq) hinv hpay
      rw [heq] at hres
      exact hres
    · intro hexc
      exact buy_tokens_hardcap_err p buyer pt lam dec amt tOk hstage hb hq hm ha
        (by omega)
  · intro p buyer pt amount dec scdec mint bacct macct amt tOk effs hmint hamount
      hstage hsm hcm hb hq hm hamt hinv hpay
    have hrawpos : 0 < (amount * 100 / p.usd_price_cents_per_nlov) * 10 ^ dec :=
      Nat.mul_pos hq (pow_pos (by norm_num) dec)
    have ha : p.total_sold + (amount * 100 / p.usd_price_cents_per_nlov) * 10 ^ dec
        < U64_LIMIT := by
      generalize hR : (amount * 100 / p.usd_price_cents_per_nlov) * 10 ^ dec = R
        at hrawpos hinv
      omega
    constructor
    · intro heq
      have hres := buy_stable_success p buyer pt amount dec scdec mint bacct macct amt
        tOk effs hmint hamount hstage hsm hcm hb hm ha (le_of_eq heq) hinv hpay
      rw [heq] at hres
      exact hres
    · intro hexc
      exact buy_stable_hardcap_err p buyer pt amount dec scdec mint bacct macct amt
        tOk hmint hamount hstage hsm hcm hb hm ha (by omega)

/-- C3 witness: with price 182_000_000 and a 1_820_000_000-lamport Web2
purchase (10 tokens, raw 10^10) the buy succeeds when the hardcap is
exactly 10^10 and fails with `HardcapReached` when it is 10^10 − 1; the
analogous stable-coin boundary at 100 tokens behaves the same way. -/
theorem c3_witness :
    (buy_tokens (mkState 3 182000000 1 0 10000000000) 7 1 1820000000 9
        1000000000000000 true
      = .ok ({ mkState 3 182000000 1 0 10000000000 with total_sold := 10000000000 },
             [],
             { buyer := 7, tokens_purchased := 1820000000 / 182000000
               sol_spent := 1820000000, sol_price_lamports_per_nlov := 182000000
               payment_type := 1 })) ∧
    (buy_tokens (mkState 3 182000000 1 0 9999999999) 7 1 1820000000 9
        1000000000000000 true
      = .error (.program .HardcapReached, mkState 3 182000000 1 0 9999999999)) ∧
    (buy_tokens_by_stable_coin (mkState 3 182000000 1 0 100000000000) 7 1 3 9 6
        USDC_ADDRESS 21 22 1000000000000000 true
      = .ok ({ mkState 3 182000000 1 0 100000000000 with
                 total_sold := 100000000000 },
             [],
             { buyer := 7, tokens_purchased := 3 * 100 / 3, stable_coin_amount := 3
               payment_type := 1 })) ∧
    (buy_tokens_by_stable_coin (mkState 3 182000000 1 0 99999999999) 7 1 3 9 6
        USDC_ADDRESS 21 22 1000000000000000 true
      = .error (.program .HardcapReached, mkState 3 182000000 1 0 99999999999)) :=
  ⟨(c3_hardcap_boundary.1 (mkState 3 182000000 1 0 10000000000) 7 1 1820000000 9
      1000000000000000 true [] (by decide) (by decide) (by decide) (by decide)
      (by decide) (by decide) (by rfl)).1 (by decide),
   (c3_hardcap_boundary.1 (mkState 3 182000000 1 0 9999999999) 7 1 1820000000 9
      1000000000000000 true [] (by decide) (by decide) (by decide) (by decide)
      (by decide) (by decide) (by rfl)).2 (by decide),
   (c3_hardcap_boundary.2 (mkState 3 182000000 1 0 100000000000) 7 1 3 9 6
      USDC_ADDRESS 21 22 1000000000000000 true [] (by decide) (by decide) (by decide)
      (by decide) (by decide) (by decide) (by decide) (by decide) (by decide)
      (by decide) (by rfl)).1 (by decide),
   (c3_hardcap_boundary.2 (mkState 3 182000000 1 0 99999999999) 7 1 3 9 6
      USDC_ADDRESS 21 22 1000000000000000 true [] (by decide) (by decide) (by decide)
      (by decide) (by decide) (by decide) (by decide) (by decide) (by decide)
      (by decide) (by rfl)).2 (by decide)⟩

/-- C1 (amended): on the native rail, once the stage check passes, a zero
price or a zero whole-token quotient fails with `InvalidPrice` and the
record is unchanged.  On the stable rail, once the allow-list,
minimum-amount and stage checks pass, a zero price fails with
`InvalidPrice`, but a zero quotient with a non-zero price does NOT fail:
the purchase succeeds, credits zero tokens, and leaves the record
unchanged (shown here for the Web2 payment path). -/
theorem c1_invalid_price_amended :
    (∀ (p : Presale) (buyer pt lam dec amt : Nat) (tOk : Bool),
      (p.sale_stage = 1 ∨ p.sale_stage = 2) →
      (p.sol_price_lamports_per_nlov = 0 ∨ lam / p.sol_price_lamports_per_nlov = 0) →
      buy_tokens p buyer pt lam dec amt tOk = .error (.program .InvalidPrice, p)) ∧
    (∀ (p : Presale) (buyer pt amount dec scdec mint bacct macct amt : Nat)
        (tOk : Bool),
      (mint = USDC_ADDRESS ∨ mint = USDT_ADDRESS) →
      1 ≤ amount →
      (p.sale_stage = 1 ∨ p.sale_stage = 2) →
      amount * 10 ^ scdec < U64_LIMIT →
      amount * 100 < U64_LIMIT →
      p.usd_price_cents_per_nlov = 0 →
      buy_tokens_by_stable_coin p buyer pt amount dec scdec mint bacct macct amt tOk
        = .error (.program .InvalidPrice, p)) ∧
    (∀ (p : Presale) (buyer amount dec scdec mint bacct macct amt : Nat)
        (tOk : Bool),
      (mint = USDC_ADDRESS ∨ mint = USDT_ADDRESS) →
      1 ≤ amount →
      (p.sale_stage = 1 ∨ p.sale_stage = 2) →
      amount * 10 ^ scdec < U64_LIMIT →
      amount * 100 < U64_LIMIT →
      p.usd_price_cents_per_nlov ≠ 0 →
      amount * 100 / p.usd_price_cents_per_nlov = 0 →
      p.total_sold ≤ p.hardcap_tokens →
      p.total_sold < U64_LIMIT →
      buy_tokens_by_stable_coin p buyer 1 amount dec scdec mint bacct macct amt tOk
        = .ok (p, [],
               { buyer := buyer, tokens_purchased := 0, stable_coin_amount := amount
                 payment_type := 1 })) := by
  refine ⟨?_, ?_, ?_⟩
  · intro p buyer pt lam dec amt tOk hstage hzero
    by_cases hb : p.sol_price_lamports_per_nlov = 0
    · simp [buy_tokens, checked_div, hstage, hb]
    · have hquot : lam / p.sol_price_lamports_per_nlov = 0 := by
        rcases hzero with h | h
        · exact absurd h hb
        · exact h
      simp [buy_tokens, checked_div, hstage, hb, hquot]
  · intro p buyer pt amount dec scdec mint bacct macct amt tOk hmint hamount hstage
      hsm hcm hb
    have hsmul : checked_mul amount (10 ^ scdec) = some (amount * 10 ^ scdec) := by
      simp [checked_mul, hsm]
    have hcmul : checked_mul amount 100 = some (amount * 100) := by
      simp [checked_mul, hcm]
    simp [buy_tokens_by_stable_coin, checked_div, hmint, hamount, hstage, hsmul,
      hcmul, hb]
  · intro p buyer amount dec scdec mint bacct macct amt tOk hmint hamount hstage
      hsm hcm hb hquot hcap htotal
    have hpay : stable_payment bacct macct 1 (amount * 10 ^ scdec) tOk = .ok [] := by
      simp [stable_payment]
    have hres := buy_stable_success p buyer 1 amount dec scdec mint bacct macct amt
      tOk [] hmint hamount hstage hsm hcm hb
      (by rw [hquot]; norm_num [U64_LIMIT])
      (by rw [hquot]; simpa using htotal)
      (by rw [hquot]; simpa using hcap)
      (by rw [hquot]; simp) hpay
    rw [hquot] at hres
    have h0 : p.total_sold + 0 * 10 ^ dec = p.total_sold := by simp
    rw [h0] at hres
    exact hres

/-- C1 counterexample: the claim says a zero whole-token quotient makes
the purchase fail with `InvalidPrice` on both rails; on the stable rail
it does not.  With price 200 cents/token and a 1-unit stable payment the
quotient is 100 / 200 = 0, yet the purchase succeeds (crediting zero
tokens) instead of failing with `InvalidPrice`. -/
theorem c1_counterexample :
    buy_tokens_by_stable_coin (mkState 200 182000000 1 0 1000000) 7 1 1 9 6
        USDC_ADDRESS 21 22 500000 true
      = .ok (mkState 200 182000000 1 0 1000000, [],
             { buyer := 7, tokens_purchased := 0, stable_coin_amount := 1,
               payment_type := 1 }) := by
  rfl

/-- C1 witness: the amended theorem applied at concrete inputs: zero
native price fails with `InvalidPrice`; zero stable price fails with
`InvalidPrice`; a zero stable-rail quotient at a non-zero price succeeds
crediting zero tokens. -/
theorem c1_witness :
    buy_tokens (mkState 3 0 1 0 1000) 7 1 500 9 1000 true
      = .error (.program .InvalidPrice, mkState 3 0 1 0 1000) ∧
    buy_tokens_by_stable_coin (mkState 0 182000000 1 0 1000) 7 1 5 9 6 USDC_ADDRESS
        21 22 1000 true
      = .error (.program .InvalidPrice, mkState 0 182000000 1 0 1000) ∧
    buy_tokens_by_stable_coin (mkState 200 182000000 1 3 1000000) 8 1 1 9 6
        USDT_ADDRESS 21 22 500000 false
      = .ok (mkState 200 182000000 1 3 1000000, [],
             { buyer := 8, tokens_purchased := 0, stable_coin_amount := 1,
               payment_type := 1 }) :=
  ⟨c1_invalid_price_amended.1 (mkState 3 0 1 0 1000) 7 1 500 9 1000 true
     (by decide) (by decide),
   c1_invalid_price_amended.2.1 (mkState 0 182000000 1 0 1000) 7 1 5 9 6 USDC_ADDRESS
     21 22 1000 true (by decide) (by decide) (by decide) (by decide) (by decide)
     (by decide),
   c1_invalid_price_amended.2.2 (mkState 200 182000000 1 3 1000000) 8 1 9 6
     USDT_ADDRESS 21 22 500000 false (by decide) (by decide) (by decide) (by decide)
     (by decide) (by decide) (by decide) (by decide) (by decide)⟩
